import Mathlib

/-!
Verification of the DPD-transition detector of the loan-collection dashboard
(`src/dashboard_app.py`).  The pandas code is shallowly embedded: a dataframe
row becomes a `Record`, pandas nulls (NaN/NaT) become `Option`, and the pandas
conventions used by the source are modelled explicitly:
`NaN > 0` is `false`, `NaN == 0` is `false`, `Series.sum()` skips nulls,
`Series.max()` skips nulls, and `int(NaN)` raises (modelled as `none`).
-/

namespace LoanDashboard

/-- One row of the source table (`Vinayna_Latest.csv` after `load_data`).
`DisbursementID` is the loan identifier; `Date` and `NumberOfDaysPastDue`
may be null (NaT / NaN), as may `PTP Status`, `PTP Amount` and
`Collection Amount`. -/
structure Record where
  disbursementID : String
  date : Option Int
  numberOfDaysPastDue : Option Int
  ptpStatus : Option String
  ptpAmount : Option Int
  collectionAmount : Option Int
  customerName : String
  branch : String
deriving Repr, DecidableEq

/-- A row of `df_sorted` after the three assignments at lines 77-82:
the original record plus `DPD_Previous`, `DPD_Change`, `DPD_Increased`,
`DPD_Decreased`. -/
structure AnnRow where
  record : Record
  dpdPrevious : Option Int
  dpdChange : Option Int
  increased : Bool
  decreased : Bool
deriving Repr, DecidableEq

/-- One element of `customer_summary_list` (lines 109-120). -/
structure Summary where
  disbursementID : String
  customerName : String
  branch : String
  totalRecords : Nat
  dpdIncreases : Nat
  dpdDecreases : Nat
  maxDpd : Int
  currentDpd : Int
  totalCollection : Int
  totalPtpAmount : Int
deriving Repr, DecidableEq

/-- Strict `<` on nullable dates, as pandas evaluates `dec_date > inc_date`
(line 105): any comparison involving NaT is `False`. -/
def dateLtB : Option Int → Option Int → Bool
  | some x, some y => decide (x < y)
  | _, _ => false

/-- `≤` on nullable dates as a sort key: `sort_values` places NaT last
(na_position last). -/
def dateLeB : Option Int → Option Int → Bool
  | some x, some y => decide (x ≤ y)
  | some _, none => true
  | none, none => true
  | none, some _ => false

/-- Lexicographic strict order on the characters of an identifier. -/
def strLtB : List Char → List Char → Bool
  | [], [] => false
  | [], _ :: _ => true
  | _ :: _, [] => false
  | a :: as, b :: bs => if a = b then strLtB as bs else decide (a < b)

/-- Sort key of the sort_values call at line 74:
by identifier, then by date with nulls last. -/
def recLEb (a b : Record) : Bool :=
  if a.disbursementID = b.disbursementID then dateLeB a.date b.date
  else strLtB a.disbursementID.data b.disbursementID.data

/-- The sort plus reset_index of line 74, modelled as a stable sort on the
same key (identifier, then date). -/
def sortRecords (df : List Record) : List Record :=
  List.insertionSort (fun a b => recLEb a b = true) df

/-- The row supplying the groupby-shift by one (line 77) for the
current row: the nearest earlier row (in the current row order) with the
same `DisbursementID`. -/
def prevSameId (p : List Record) (cid : String) : Option Record :=
  p.reverse.find? (fun r => r.disbursementID == cid)

/-- Lines 77-82: `DPD_Previous` is the `NumberOfDaysPastDue` of the previous same-loan row (null if that value is null or there is no such row),
`DPD_Change = NumberOfDaysPastDue - DPD_Previous` (null if either side is
null), and `DPD_Increased` / `DPD_Decreased` compare the change with 0,
where a null change compares as `False`. -/
def mkAnn (r : Record) (prevRec : Option Record) : AnnRow :=
  let dpdPrev : Option Int := prevRec.bind (fun x => x.numberOfDaysPastDue)
  let change : Option Int :=
    match r.numberOfDaysPastDue, dpdPrev with
    | some a, some b => some (a - b)
    | _, _ => none
  { record := r
    dpdPrevious := dpdPrev
    dpdChange := change
    increased := match change with | some c => decide (0 < c) | none => false
    decreased := match change with | some c => decide (c < 0) | none => false }

/-- Annotate each row in order, carrying the list of rows already passed
(the group-wise `shift(1)` looks back through that list). -/
def annotateFrom : List Record → List Record → List AnnRow
  | _, [] => []
  | p, r :: rest => mkAnn r (prevSameId p r.disbursementID) :: annotateFrom (p ++ [r]) rest

/-- `df_sorted` with its four derived columns (lines 74-82). -/
def annotated (df : List Record) : List AnnRow :=
  annotateFrom [] (sortRecords df)

/-- The `PTP Status` condition of lines 85-88: non-null and not `"No PTP"`. -/
def ptpOk (r : Record) : Bool :=
  match r.ptpStatus with
  | some s => s ≠ "No PTP"
  | none => false

/-- First-occurrence deduplication, the order `Series.unique()` returns
(line 88); `seen` accumulates identifiers already emitted. -/
def uniqueKeepFirstAux (seen : List String) : List String → List String
  | [] => []
  | x :: xs =>
    if x ∈ seen then uniqueKeepFirstAux seen xs
    else x :: uniqueKeepFirstAux (x :: seen) xs

/-- The unique DisbursementID values of the PTP-filtered `df_sorted` (lines 85-88). -/
def candidates (df : List Record) : List String :=
  uniqueKeepFirstAux [] (((annotated df).filter (fun a => ptpOk a.record)).map (fun a => a.record.disbursementID))

/-- `customer_data`: the rows of `df_sorted` belonging to one loan (line 95). -/
def loanRows (rows : List AnnRow) (cid : String) : List AnnRow :=
  rows.filter (fun a => a.record.disbursementID == cid)

/-- Lines 101-106: collect increase dates and decrease dates and scan the
increase dates for one that has a strictly later decrease date.  The Python
`for`/`break` loop appends the customer exactly once if and only if such an
increase date exists, which is this `any`/`any` scan. -/
def hasSubsequentDecrease (g : List AnnRow) : Bool :=
  let increase_dates := (g.filter (fun a => a.increased)).map (fun a => a.record.date)
  let decrease_dates := (g.filter (fun a => a.decreased)).map (fun a => a.record.date)
  increase_dates.any (fun inc => decrease_dates.any (fun dec => dateLtB inc dec))

/-- Lines 97-106: the whole per-customer test (`has_dpd_increase and
has_dpd_decrease`, then the date scan). -/
def qualifiesB (rows : List AnnRow) (cid : String) : Bool :=
  let g := loanRows rows cid
  (g.any (fun a => a.increased)) && (g.any (fun a => a.decreased)) && hasSubsequentDecrease g

/-- `Series.max()` over the non-null values (`none` when all are null, in
which case `int(...)` at line 116 raises). -/
def maxO : List Int → Option Int
  | [] => none
  | x :: xs =>
    match maxO xs with
    | none => some x
    | some m => some (max x m)

/-- The int conversion of the NumberOfDaysPastDue maximum, line 116. -/
def maxDpd (rows : List AnnRow) : Option Int :=
  maxO (rows.filterMap (fun a => a.record.numberOfDaysPastDue))

/-- `Series.sum()` with the pandas skip-null convention: nulls count as 0. -/
def sumAmt (l : List (Option Int)) : Int :=
  l.foldl (fun acc x => acc + x.getD 0) 0

/-- The summary dictionary of lines 109-120.  `none` models the `ValueError`
raised by `int(...)` when `NumberOfDaysPastDue` of the last row (line 117)
or the maximum (line 116) is NaN; the first-row lookups of lines 111-112
fail on an empty group. -/
def mkSummary (cid : String) (rows : List AnnRow) : Option Summary :=
  match rows.head?, maxDpd rows, rows.getLast?.bind (fun a => a.record.numberOfDaysPastDue) with
  | some r0, some mx, some cur =>
    some { disbursementID := cid
           customerName := r0.record.customerName
           branch := r0.record.branch
           totalRecords := rows.length
           dpdIncreases := rows.countP (fun a => a.increased)
           dpdDecreases := rows.countP (fun a => a.decreased)
           maxDpd := mx
           currentDpd := cur
           totalCollection := sumAmt (rows.map (fun a => a.record.collectionAmount))
           totalPtpAmount := sumAmt (rows.map (fun a => a.record.ptpAmount)) }
  | _, _, _ => none

/-- The loop of lines 94-121 over the candidate identifiers: a qualifying
customer is appended to `target_customers` and its summary to
`customer_summary_list`; an exception while building a summary aborts the
whole call (`none`). -/
def detectLoop (rows : List AnnRow) : List String → Option (List Summary × List String)
  | [] => some ([], [])
  | cid :: rest =>
    if qualifiesB rows cid then
      match mkSummary cid (loanRows rows cid) with
      | none => none
      | some s =>
        match detectLoop rows rest with
        | none => none
        | some (sums, tgts) => some (s :: sums, cid :: tgts)
    else detectLoop rows rest

/-- `find_dpd_pattern_customers` (lines 69-125): returns
`(summary rows, df_sorted with annotations, target_customers)`, or `none`
when the Python function raises. -/
def find_dpd_pattern_customers (df : List Record) :
    Option (List Summary × List AnnRow × List String) :=
  match detectLoop (annotated df) (candidates df) with
  | none => none
  | some (sums, tgts) => some (sums, annotated df, tgts)

/-- Python str.replace of the fixed two-character pattern `".0"` (lines 288
and 291): remove every non-overlapping occurrence, scanning left to right. -/
def replaceDot0 : List Char → List Char
  | '.' :: '0' :: rest => replaceDot0 rest
  | c :: rest => c :: replaceDot0 rest
  | [] => []

/-- Python str.lstrip with argument `"0"`: drop every leading zero character. -/
def lstripZeros : List Char → List Char
  | [] => []
  | c :: rest => if c = '0' then lstripZeros rest else c :: rest

/-- The normalization the source applies to both sides of the comparison at
line 292: convert to str, replace every `".0"` occurrence with the empty string, strip leading zeros. -/
def normCode (s : String) : String :=
  (lstripZeros (replaceDot0 s.data)).asString

/-- The loan-ID search of lines 286-297: normalize the input once, then
return the first candidate whose normalization matches (`matched = False`
path reports not-found, modelled as `none`). -/
def resolveLoanId (input : String) (cands : List String) : Option String :=
  cands.find? (fun cust => normCode cust == normCode input)

/-- Modelled from the spec: the normalization as the spec words it, for comparison with `normCode`: strip one
TRAILING `".0"` float-artifact, then strip leading zeros. -/
def normSpecTrailing (s : String) : String :=
  let stripped : List Char :=
    match s.data.reverse with
    | '0' :: '.' :: r => r.reverse
    | _ => s.data
  (lstripZeros stripped).asString

/-- The selection of lines 905-911 (`collections_without_ptp`): rows with
`Collection Amount > 0` and `PTP Amount == 0`, under pandas null semantics
(a null amount satisfies neither comparison).  `PTP Status` is not read. -/
def withoutPtpPred (r : Record) : Bool :=
  (match r.collectionAmount with | some c => decide (0 < c) | none => false) &&
  (match r.ptpAmount with | some p => decide (p = 0) | none => false)

/-- `filtered_df[(Collection Amount > 0) & (PTP Amount == 0)]` (lines 905-911). -/
def collections_without_ptp (rows : List Record) : List Record :=
  rows.filter withoutPtpPred




def mkRow (cid : String) (d dpd : Option Int) (st : Option String) : Record :=
  { disbursementID := cid, date := d, numberOfDaysPastDue := dpd, ptpStatus := st,
    ptpAmount := some 100, collectionAmount := some 50, customerName := "N", branch := "B" }

def blankSummary : Summary :=
  { disbursementID := "", customerName := "", branch := "", totalRecords := 0,
    dpdIncreases := 0, dpdDecreases := 0, maxDpd := 0, currentDpd := 0,
    totalCollection := 0, totalPtpAmount := 0 }

def scenarioA : List Record :=
  [mkRow "L1" (some 1) (some 0) none, mkRow "L1" (some 5) (some 10) (some "Pending"),
   mkRow "L1" (some 10) (some 25) none, mkRow "L1" (some 20) (some 5) none]

def scenarioAout : List Summary × List AnnRow × List String :=
  (find_dpd_pattern_customers scenarioA).getD ([], [], [])

def scenarioD : List Record :=
  [mkRow "L4" (some 1) (some 0) none, mkRow "L4" (some 2) (some 5) (some "Pending"),
   mkRow "L4" (some 3) (some 2) none, mkRow "L4" (some 4) (some 7) none,
   mkRow "L4" (some 5) (some 3) none]

def scenarioDout : List Summary × List AnnRow × List String :=
  (find_dpd_pattern_customers scenarioD).getD ([], [], [])

def scenarioDsum : Summary := scenarioDout.1.getD 0 blankSummary

def scenarioC : List Record := [mkRow "L3" (some 1) (some 7) (some "Pending")]

def scenarioCout : List Summary × List AnnRow × List String :=
  (find_dpd_pattern_customers scenarioC).getD ([], [], [])

def c2WithNulls : List Record :=
  [mkRow "L1" (some 1) (some 0) (some "Pending"), mkRow "L1" (some 2) none none,
   mkRow "L1" (some 3) (some 5) none, mkRow "L1" (some 4) (some 2) none,
   mkRow "L1" none (some 2) none]

def c2Cleaned : List Record :=
  c2WithNulls.filter (fun r => !(r.date == none) && !(r.numberOfDaysPastDue == none))

def c2NullAnn : AnnRow := (annotated c2WithNulls).getD 1 (mkAnn (mkRow "" none none none) none)

def c3LastNull : List Record :=
  [mkRow "L9" (some 1) (some 0) (some "Pending"), mkRow "L9" (some 2) (some 5) none,
   mkRow "L9" (some 3) (some 2) none, mkRow "L9" (some 4) none none]

def c9Row : Record :=
  { disbursementID := "L9", date := some 1, numberOfDaysPastDue := some 3,
    ptpStatus := some "Pending", ptpAmount := some 0, collectionAmount := some 50,
    customerName := "N", branch := "B" }

lemma mkAnn_record (r : Record) (pr : Option Record) : (mkAnn r pr).record = r := rfl

lemma annotateFrom_map_record : ∀ (rows p : List Record),
    (annotateFrom p rows).map (fun a => a.record) = rows
  | [], _ => rfl
  | r :: rest, p => by
    simp [annotateFrom, mkAnn_record, annotateFrom_map_record rest]

lemma sortRecords_perm (df : List Record) : (sortRecords df).Perm df :=
  List.perm_insertionSort _ df

lemma mem_annotated_record {df : List Record} {a : AnnRow} (ha : a ∈ annotated df) :
    a.record ∈ sortRecords df := by
  have := List.mem_map_of_mem (fun a => a.record) ha
  rwa [annotated, annotateFrom_map_record] at this

lemma exists_ann_iff (df : List Record) (P : Record → Prop) :
    (∃ a ∈ annotated df, P a.record) ↔ ∃ r ∈ df, P r := by
  constructor
  · rintro ⟨a, ha, hP⟩
    exact ⟨a.record, (sortRecords_perm df).mem_iff.mp (mem_annotated_record ha), hP⟩
  · rintro ⟨r, hr, hP⟩
    have hr' : r ∈ sortRecords df := (sortRecords_perm df).mem_iff.mpr hr
    have : r ∈ (annotated df).map (fun a => a.record) := by
      rwa [annotated, annotateFrom_map_record]
    obtain ⟨a, ha, rfl⟩ := List.mem_map.mp this
    exact ⟨a, ha, hP⟩

lemma mem_uniqueKeepFirstAux : ∀ (l seen : List String) (x : String),
    x ∈ uniqueKeepFirstAux seen l ↔ x ∈ l ∧ x ∉ seen
  | [], seen, x => by simp [uniqueKeepFirstAux]
  | y :: ys, seen, x => by
    by_cases hy : y ∈ seen
    · simp only [uniqueKeepFirstAux, if_pos hy, mem_uniqueKeepFirstAux ys, List.mem_cons]
      constructor
      · rintro ⟨h1, h2⟩; exact ⟨Or.inr h1, h2⟩
      · rintro ⟨h1 | h1, h2⟩
        · subst h1; exact absurd hy h2
        · exact ⟨h1, h2⟩
    · simp only [uniqueKeepFirstAux, if_neg hy, List.mem_cons, mem_uniqueKeepFirstAux ys]
      by_cases hxy : x = y
      · subst hxy; simp [hy]
      · simp [hxy]

lemma nodup_uniqueKeepFirstAux : ∀ (l seen : List String), (uniqueKeepFirstAux seen l).Nodup
  | [], seen => by simp [uniqueKeepFirstAux]
  | y :: ys, seen => by
    by_cases hy : y ∈ seen
    · simpa [uniqueKeepFirstAux, if_pos hy] using nodup_uniqueKeepFirstAux ys seen
    · simp only [uniqueKeepFirstAux, if_neg hy, List.nodup_cons]
      refine ⟨fun hmem => ?_, nodup_uniqueKeepFirstAux ys (y :: seen)⟩
      exact ((mem_uniqueKeepFirstAux ys (y :: seen) y).mp hmem).2 (List.mem_cons_self y seen)

lemma ptpOk_iff (r : Record) : ptpOk r = true ↔ ∃ st, r.ptpStatus = some st ∧ st ≠ "No PTP" := by
  cases h : r.ptpStatus <;> simp [ptpOk, h]

lemma mem_candidates_iff (df : List Record) (cid : String) :
    cid ∈ candidates df ↔ ∃ r ∈ df, r.disbursementID = cid ∧ ptpOk r = true := by
  rw [candidates, mem_uniqueKeepFirstAux]
  constructor
  · rintro ⟨hmem, -⟩
    obtain ⟨a, haf, rfl⟩ := List.mem_map.mp hmem
    obtain ⟨ha, hok⟩ := List.mem_filter.mp haf
    exact (exists_ann_iff df fun r => r.disbursementID = a.record.disbursementID ∧ ptpOk r = true).mp
      ⟨a, ha, rfl, hok⟩
  · rintro ⟨r, hr, rfl, hok⟩
    obtain ⟨a, ha, hP⟩ :=
      (exists_ann_iff df fun x => x.disbursementID = r.disbursementID ∧ ptpOk x = true).mpr
        ⟨r, hr, rfl, hok⟩
    exact ⟨List.mem_map.mpr ⟨a, List.mem_filter.mpr ⟨ha, hP.2⟩, hP.1⟩, List.not_mem_nil _⟩

lemma qualifiesB_iff (rows : List AnnRow) (cid : String) :
    qualifiesB rows cid = true ↔
      ∃ a ∈ loanRows rows cid, a.increased = true ∧
        ∃ b ∈ loanRows rows cid, b.decreased = true ∧ dateLtB a.record.date b.record.date = true := by
  simp only [qualifiesB, hasSubsequentDecrease, Bool.and_eq_true, List.any_eq_true,
    List.mem_map, List.mem_filter]
  constructor
  · rintro ⟨⟨-, -⟩, ⟨di, ⟨a, ⟨ha, hainc⟩, rfl⟩, dd, ⟨b, ⟨hb, hbdec⟩, rfl⟩, hlt⟩⟩
    exact ⟨a, ha, hainc, b, hb, hbdec, hlt⟩
  · rintro ⟨a, ha, hainc, b, hb, hbdec, hlt⟩
    exact ⟨⟨⟨a, ha, hainc⟩, ⟨b, hb, hbdec⟩⟩,
      ⟨a.record.date, ⟨a, ⟨ha, hainc⟩, rfl⟩, b.record.date, ⟨b, ⟨hb, hbdec⟩, rfl⟩, hlt⟩⟩

lemma mkSummary_eq_some {cid : String} {rows : List AnnRow} {s : Summary}
    (h : mkSummary cid rows = some s) :
    s.disbursementID = cid ∧
    s.totalRecords = rows.length ∧
    s.dpdIncreases = rows.countP (fun a => a.increased) ∧
    s.dpdDecreases = rows.countP (fun a => a.decreased) ∧
    maxDpd rows = some s.maxDpd ∧
    rows.getLast?.bind (fun a => a.record.numberOfDaysPastDue) = some s.currentDpd ∧
    s.totalCollection = sumAmt (rows.map (fun a => a.record.collectionAmount)) ∧
    s.totalPtpAmount = sumAmt (rows.map (fun a => a.record.ptpAmount)) := by
  unfold mkSummary at h
  split at h
  · rename_i r0 mx cur h1 h2 h3
    cases h
    exact ⟨rfl, rfl, rfl, rfl, h2, h3, rfl, rfl⟩
  · exact absurd h (by simp)

lemma detectLoop_sound {rows : List AnnRow} :
    ∀ {cands : List String} {sums : List Summary} {tgts : List String},
    detectLoop rows cands = some (sums, tgts) →
    tgts = cands.filter (fun c => qualifiesB rows c) ∧
    sums.map (fun s => s.disbursementID) = tgts ∧
    ∀ s ∈ sums, mkSummary s.disbursementID (loanRows rows s.disbursementID) = some s
  | [], sums, tgts, h => by
    cases h; simp
  | cid :: rest, sums, tgts, h => by
    rw [detectLoop] at h
    by_cases hq : qualifiesB rows cid
    · rw [if_pos hq] at h
      cases hmk : mkSummary cid (loanRows rows cid) with
      | none => rw [hmk] at h; cases h
      | some s0 =>
        rw [hmk] at h
        cases hdl : detectLoop rows rest with
        | none => rw [hdl] at h; cases h
        | some p =>
          obtain ⟨sums', tgts'⟩ := p
          rw [hdl] at h
          cases h
          obtain ⟨ht, hm, hs⟩ := detectLoop_sound hdl
          have hid : s0.disbursementID = cid := (mkSummary_eq_some hmk).1
          refine ⟨by simp [hq, ht], by simp [hid, hm, ht], ?_⟩
          intro s hsmem
          rcases List.mem_cons.mp hsmem with rfl | hsmem'
          · rw [hid]; exact hmk
          · exact hs s hsmem'
    · rw [if_neg hq] at h
      obtain ⟨ht, hm, hs⟩ := detectLoop_sound h
      have hqf : qualifiesB rows cid = false := by
        cases hqv : qualifiesB rows cid
        · rfl
        · exact absurd (by simp [hqv] : qualifiesB rows cid = true) (by simpa using hq)
      exact ⟨by simp [hqf, ht], hm, hs⟩

lemma find_some {df : List Record} {out : List Summary × List AnnRow × List String}
    (h : find_dpd_pattern_customers df = some out) :
    ∃ sums tgts, out = (sums, annotated df, tgts) ∧
      detectLoop (annotated df) (candidates df) = some (sums, tgts) := by
  unfold find_dpd_pattern_customers at h
  rcases hdl : detectLoop (annotated df) (candidates df) with _ | ⟨sums, tgts⟩
  · rw [hdl] at h; cases h
  · rw [hdl] at h
    cases h
    exact ⟨sums, tgts, rfl, rfl⟩


lemma maxO_spec : ∀ {l : List Int} {m : Int}, maxO l = some m → m ∈ l ∧ ∀ x ∈ l, x ≤ m
  | [], m, h => by cases h
  | x :: xs, m, h => by
    rw [maxO] at h
    cases hx : maxO xs with
    | none =>
      rw [hx] at h
      cases h
      have hnil : xs = [] := by
        cases xs with
        | nil => rfl
        | cons y ys => rw [maxO] at hx; cases hmm : maxO ys <;> rw [hmm] at hx <;> cases hx
      subst hnil
      simp
    | some m' =>
      rw [hx] at h
      cases h
      obtain ⟨hmem, hbound⟩ := maxO_spec hx
      constructor
      · rcases max_choice x m' with hc | hc <;> rw [hc]
        · exact List.mem_cons_self x xs
        · exact List.mem_cons_of_mem x hmem
      · intro y hy
        rcases List.mem_cons.mp hy with rfl | hy'
        · exact le_max_left y m'
        · exact le_trans (hbound y hy') (le_max_right x m')

lemma mkAnn_not_both (r : Record) (pr : Option Record) :
    ¬((mkAnn r pr).increased = true ∧ (mkAnn r pr).decreased = true) := by
  rintro ⟨hi, hd⟩
  unfold mkAnn at hi hd
  cases h1 : r.numberOfDaysPastDue with
  | none => simp [h1] at hi
  | some a =>
    cases h2 : pr.bind (fun x => x.numberOfDaysPastDue) with
    | none => simp [h1, h2] at hi
    | some b =>
      simp [h1, h2] at hi hd
      omega

lemma mkAnn_null_dpd (r : Record) (pr : Option Record)
    (h : r.numberOfDaysPastDue = none) :
    (mkAnn r pr).increased = false ∧ (mkAnn r pr).decreased = false := by
  unfold mkAnn
  simp [h]

lemma mkAnn_prev_none (r : Record) :
    (mkAnn r none).increased = false ∧ (mkAnn r none).decreased = false := by
  unfold mkAnn
  cases h : r.numberOfDaysPastDue <;> simp [h, Option.bind]

lemma mem_annotateFrom :
    ∀ {rows : List Record} {p : List Record} {a : AnnRow}, a ∈ annotateFrom p rows →
      ∃ r pr, a = mkAnn r pr
  | [], _, _, h => by cases h
  | r :: rest, p, a, h => by
    rcases List.mem_cons.mp h with rfl | h'
    · exact ⟨r, prevSameId p r.disbursementID, rfl⟩
    · exact mem_annotateFrom h'

lemma prevSameId_mem {p : List Record} {cid : String} {x : Record}
    (h : prevSameId p cid = some x) : x ∈ p ∧ x.disbursementID = cid := by
  unfold prevSameId at h
  have hx := List.find?_some h
  have hmem := List.mem_reverse.mp (List.mem_of_find?_eq_some h)
  exact ⟨hmem, by simpa using hx⟩

lemma prevSameId_none {p : List Record} {cid : String}
    (h : ∀ x ∈ p, x.disbursementID ≠ cid) : prevSameId p cid = none := by
  unfold prevSameId
  rw [List.find?_eq_none]
  intro x hx
  simpa using h x (List.mem_reverse.mp hx)

lemma mkAnn_increased_prevSome {r : Record} {pr : Option Record}
    (h : (mkAnn r pr).increased = true) : ∃ x, pr = some x := by
  cases hpr : pr with
  | some x => exact ⟨x, rfl⟩
  | none =>
    subst hpr
    unfold mkAnn at h
    cases h1 : r.numberOfDaysPastDue <;> simp [h1, Option.bind] at h

lemma annotateFrom_increased_count :
    ∀ {rows : List Record} {p : List Record} {a : AnnRow}, a ∈ annotateFrom p rows →
      a.increased = true →
      2 ≤ (p ++ rows).countP (fun r => r.disbursementID == a.record.disbursementID)
  | [], _, _, h, _ => by cases h
  | r :: rest, p, a, h, hinc => by
    rcases List.mem_cons.mp h with rfl | h'
    · obtain ⟨x, hx⟩ := mkAnn_increased_prevSome hinc
      obtain ⟨hxmem, hxid⟩ := prevSameId_mem hx
      have hrec : (mkAnn r (prevSameId p r.disbursementID)).record = r := rfl
      rw [hrec]
      rw [List.countP_append]
      have h1 : 0 < p.countP (fun q => q.disbursementID == r.disbursementID) :=
        List.countP_pos_iff.mpr ⟨x, hxmem, by simp [hxid]⟩
      have h2 : 0 < (r :: rest).countP (fun q => q.disbursementID == r.disbursementID) :=
        List.countP_pos_iff.mpr ⟨r, List.mem_cons_self r rest, by simp⟩
      omega
    · have := annotateFrom_increased_count h' hinc
      have heq : (p ++ [r]) ++ rest = p ++ r :: rest := by simp
      rwa [heq] at this

lemma annotateFrom_filter_head :
    ∀ {rows : List Record} {p : List Record} {cid : String},
      (∀ x ∈ p, x.disbursementID ≠ cid) →
      ∀ {a : AnnRow},
        ((annotateFrom p rows).filter (fun a => a.record.disbursementID == cid)).head? = some a →
        a.increased = false ∧ a.decreased = false
  | [], p, cid, hp, a, h => by simp [annotateFrom] at h
  | r :: rest, p, cid, hp, a, h => by
    rw [annotateFrom] at h
    by_cases hid : r.disbursementID = cid
    · rw [List.filter_cons_of_pos (by simpa [mkAnn_record] using hid)] at h
      rw [List.head?_cons] at h
      cases h
      have hnone : prevSameId p r.disbursementID = none := by
        apply prevSameId_none
        intro x hx
        rw [hid]
        exact hp x hx
      rw [hnone]
      exact mkAnn_prev_none r
    · rw [List.filter_cons_of_neg (by simpa [mkAnn_record] using hid)] at h
      refine annotateFrom_filter_head ?_ h
      intro x hx
      rcases List.mem_append.mp hx with hx' | hx'
      · exact hp x hx'
      · rw [List.mem_singleton.mp hx']
        exact hid

/-- C1: a loan appears in the qualifying set produced by the detector if and
only if (a) it has at least one input record with a non-null PromiseStatus
other than "No PTP", and (b) among its date-sorted annotated records there is
an increase-flagged record whose date is strictly before the date of some
decrease-flagged record. -/
theorem detect_qualifying_iff (df : List Record)
    (out : List Summary × List AnnRow × List String)
    (h : find_dpd_pattern_customers df = some out) (cid : String) :
    cid ∈ out.2.2 ↔
      ((∃ r ∈ df, r.disbursementID = cid ∧ ∃ st, r.ptpStatus = some st ∧ st ≠ "No PTP") ∧
       ∃ a ∈ loanRows out.2.1 cid, a.increased = true ∧
         ∃ b ∈ loanRows out.2.1 cid, b.decreased = true ∧
           dateLtB a.record.date b.record.date = true) := by
  obtain ⟨sums, tgts, rfl, hdl⟩ := find_some h
  obtain ⟨ht, hm, hs⟩ := detectLoop_sound hdl
  show cid ∈ tgts ↔ _
  rw [ht, List.mem_filter, mem_candidates_iff, qualifiesB_iff]
  simp only [ptpOk_iff]

/-- C4: every summary row of a qualifying loan is computed over the whole
timeline of that loan: the increase and decrease counts are the exact counts
of flagged records among all of the loan rows, Max_DPD is attained and is an
upper bound over all non-null DaysPastDue values, Current_DPD is the
DaysPastDue of the last row, and Total_Records is the row count. -/
theorem detect_summary_whole_timeline (df : List Record)
    (out : List Summary × List AnnRow × List String)
    (h : find_dpd_pattern_customers df = some out)
    (s : Summary) (hs : s ∈ out.1) :
    s.dpdIncreases = (loanRows out.2.1 s.disbursementID).countP (fun a => a.increased) ∧
    s.dpdDecreases = (loanRows out.2.1 s.disbursementID).countP (fun a => a.decreased) ∧
    (∃ a ∈ loanRows out.2.1 s.disbursementID,
        a.record.numberOfDaysPastDue = some s.maxDpd) ∧
    (∀ a ∈ loanRows out.2.1 s.disbursementID, ∀ d : Int,
        a.record.numberOfDaysPastDue = some d → d ≤ s.maxDpd) ∧
    (loanRows out.2.1 s.disbursementID).getLast?.bind (fun a => a.record.numberOfDaysPastDue)
      = some s.currentDpd ∧
    s.totalRecords = (loanRows out.2.1 s.disbursementID).length := by
  obtain ⟨sums, tgts, rfl, hdl⟩ := find_some h
  obtain ⟨-, -, hsum⟩ := detectLoop_sound hdl
  have hmk := hsum s hs
  obtain ⟨hid, hlen, hinc, hdec, hmax, hcur, hcol, hptp⟩ := mkSummary_eq_some hmk
  rw [maxDpd] at hmax
  have hmx := maxO_spec hmax
  refine ⟨hinc, hdec, ?_, ?_, hcur, hlen⟩
  · obtain ⟨a, ha, hfa⟩ := List.mem_filterMap.mp hmx.1
    exact ⟨a, ha, hfa⟩
  · intro a ha d hd
    exact hmx.2 d (List.mem_filterMap.mpr ⟨a, ha, hd⟩)

/-- C5: a loan with fewer than two input records never appears in the
qualifying target list nor among the summary rows: an increase flag requires
an earlier same-loan row, hence at least two records. -/
theorem detect_min_two_records (df : List Record)
    (out : List Summary × List AnnRow × List String)
    (h : find_dpd_pattern_customers df = some out) (cid : String)
    (hcount : df.countP (fun r => r.disbursementID == cid) < 2) :
    cid ∉ out.2.2 ∧ ∀ s ∈ out.1, s.disbursementID ≠ cid := by
  obtain ⟨sums, tgts, rfl, hdl⟩ := find_some h
  obtain ⟨ht, hm, -⟩ := detectLoop_sound hdl
  have hnot : cid ∉ tgts := by
    intro hmem
    rw [ht, List.mem_filter] at hmem
    obtain ⟨-, hq⟩ := hmem
    obtain ⟨a, ha, hainc, -⟩ := (qualifiesB_iff _ _).mp hq
    rw [loanRows, List.mem_filter] at ha
    obtain ⟨ha', haid⟩ := ha
    have hcnt := annotateFrom_increased_count
      (show a ∈ annotateFrom [] (sortRecords df) from ha') hainc
    have haid' : a.record.disbursementID = cid := by simpa using haid
    rw [List.nil_append, haid'] at hcnt
    have hp := (sortRecords_perm df).countP_eq (fun r => r.disbursementID == cid)
    omega
  refine ⟨hnot, ?_⟩
  intro s hsmem hsid
  exact hnot (by rw [← hm]; exact List.mem_map.mpr ⟨s, hsmem, hsid⟩)

/-- C6: in the annotated record set produced by the detector, no record is
flagged both Increased and Decreased, and the first record of each loan
timeline carries both flags false. -/
theorem detect_flag_invariants (df : List Record)
    (out : List Summary × List AnnRow × List String)
    (h : find_dpd_pattern_customers df = some out) :
    (∀ a ∈ out.2.1, ¬(a.increased = true ∧ a.decreased = true)) ∧
    (∀ cid : String, ∀ a : AnnRow, (loanRows out.2.1 cid).head? = some a →
      a.increased = false ∧ a.decreased = false) := by
  obtain ⟨sums, tgts, rfl, hdl⟩ := find_some h
  constructor
  · intro a ha
    obtain ⟨r, pr, rfl⟩ := mem_annotateFrom
      (show a ∈ annotateFrom [] (sortRecords df) from ha)
    exact mkAnn_not_both r pr
  · intro cid a hhead
    exact annotateFrom_filter_head (by simp) hhead

/-- C8: no loan is double-counted: the target list has no duplicates and the
summary rows have pairwise distinct loan identifiers. -/
theorem detect_no_double_count (df : List Record)
    (out : List Summary × List AnnRow × List String)
    (h : find_dpd_pattern_customers df = some out) :
    out.2.2.Nodup ∧ (out.1.map (fun s => s.disbursementID)).Nodup := by
  obtain ⟨sums, tgts, rfl, hdl⟩ := find_some h
  obtain ⟨ht, hm, -⟩ := detectLoop_sound hdl
  have hnd : tgts.Nodup := by
    rw [ht]
    exact (nodup_uniqueKeepFirstAux _ _).filter _
  refine ⟨hnd, ?_⟩
  show (sums.map (fun s => s.disbursementID)).Nodup
  rw [hm]
  exact hnd

/-- C10: the detector does not alter its input records: the annotated table it
returns carries every input record, with every field unchanged, as a
permutation of the input collection. -/
theorem detect_records_preserved (df : List Record)
    (out : List Summary × List AnnRow × List String)
    (h : find_dpd_pattern_customers df = some out) :
    (out.2.1.map (fun a => a.record)).Perm df := by
  obtain ⟨sums, tgts, rfl, hdl⟩ := find_some h
  show ((annotated df).map (fun a => a.record)).Perm df
  rw [annotated, annotateFrom_map_record]
  exact sortRecords_perm df

/-- C2 amended: records with null Date or null DaysPastDue are NOT excluded:
every input record, malformed ones included, is carried into the annotated
output, and a record whose DaysPastDue is null is itself never flagged
Increased or Decreased; the output on an input with such rows may differ from
the output with those rows removed. -/
theorem malformed_rows_carried (df : List Record) (a : AnnRow)
    (ha : a ∈ annotated df) (hnull : a.record.numberOfDaysPastDue = none) :
    ((annotated df).map (fun x => x.record)).Perm df ∧
    a.increased = false ∧ a.decreased = false := by
  refine ⟨?_, ?_⟩
  · rw [annotated, annotateFrom_map_record]
    exact sortRecords_perm df
  · obtain ⟨r, pr, rfl⟩ := mem_annotateFrom
      (show a ∈ annotateFrom [] (sortRecords df) from ha)
    exact mkAnn_null_dpd r pr hnull

/-- C7 counterexample: the source normalizes with a global replace of the
substring ".0", not a trailing-only strip.  For user input "1.05" and
qualifying list ["15"], the normalization the claim describes matches no
qualifying identifier (so the claim predicts not-found), yet the code resolves
the input to "15". -/
theorem resolveLoanId_trailing_only_refuted :
    resolveLoanId "1.05" ["15"] = some "15" ∧
    (∀ c ∈ ["15"], normSpecTrailing c ≠ normSpecTrailing "1.05") := by
  decide

/-- C7 amended: the loan-ID search normalizes both sides by removing every
occurrence of the substring ".0" and stripping leading zeros; a returned match
is a qualifying identifier with equal normalization, an input matching no
qualifying identifier under this normalization yields not-found, and the three
spec example inputs resolve identically against any qualifying list. -/
theorem resolveLoanId_normalized (input : String) (cands : List String) :
    (∀ c, resolveLoanId input cands = some c → c ∈ cands ∧ normCode c = normCode input) ∧
    ((∀ c ∈ cands, normCode c ≠ normCode input) → resolveLoanId input cands = none) ∧
    resolveLoanId "0270001375" cands = resolveLoanId "270001375" cands ∧
    resolveLoanId "270001375.0" cands = resolveLoanId "270001375" cands := by
  refine ⟨?_, ?_, ?_, ?_⟩
  · intro c hc
    refine ⟨List.mem_of_find?_eq_some hc, ?_⟩
    simpa using List.find?_some hc
  · intro hall
    rw [resolveLoanId, List.find?_eq_none]
    intro x hx
    simpa using hall x hx
  · rw [resolveLoanId, resolveLoanId]
    simp only [show normCode "0270001375" = normCode "270001375" from by decide]
  · rw [resolveLoanId, resolveLoanId]
    simp only [show normCode "270001375.0" = normCode "270001375" from by decide]

lemma withoutPtpPred_iff (r : Record) :
    withoutPtpPred r = true ↔
      (∃ c, r.collectionAmount = some c ∧ 0 < c) ∧ r.ptpAmount = some 0 := by
  cases h1 : r.collectionAmount <;> cases h2 : r.ptpAmount <;>
    simp [withoutPtpPred, h1, h2]

/-- C9: the Collections Without PTP selection keeps exactly the records with
Collection Amount strictly positive and PTP Amount equal to zero, and its
predicate is insensitive to the PromiseStatus field. -/
theorem collections_without_ptp_iff (rows : List Record) (r : Record) :
    (r ∈ collections_without_ptp rows ↔
      r ∈ rows ∧ (∃ c, r.collectionAmount = some c ∧ 0 < c) ∧ r.ptpAmount = some 0) ∧
    (∀ st : Option String, withoutPtpPred { r with ptpStatus := st } = withoutPtpPred r) := by
  constructor
  · rw [collections_without_ptp, List.mem_filter, withoutPtpPred_iff]
  · intro st
    rfl

/-- C1 witness: the theorem evaluated on the four-record scenario-A loan. -/
theorem detect_qualifying_iff_witness :
    find_dpd_pattern_customers scenarioA = some scenarioAout ∧
    ("L1" ∈ scenarioAout.2.2 ↔
      ((∃ r ∈ scenarioA, r.disbursementID = "L1" ∧ ∃ st, r.ptpStatus = some st ∧ st ≠ "No PTP") ∧
       ∃ a ∈ loanRows scenarioAout.2.1 "L1", a.increased = true ∧
         ∃ b ∈ loanRows scenarioAout.2.1 "L1", b.decreased = true ∧
           dateLtB a.record.date b.record.date = true)) :=
  ⟨by decide, detect_qualifying_iff scenarioA scenarioAout (by decide) "L1"⟩

/-- C4 witness: the theorem evaluated on a loan with two independent
increase-decrease cycles (scenario D), whose single summary row combines both
cycles. -/
theorem detect_summary_whole_timeline_witness :
    find_dpd_pattern_customers scenarioD = some scenarioDout ∧
    scenarioDsum ∈ scenarioDout.1 ∧
    (scenarioDsum.dpdIncreases
        = (loanRows scenarioDout.2.1 scenarioDsum.disbursementID).countP (fun a => a.increased) ∧
     scenarioDsum.dpdDecreases
        = (loanRows scenarioDout.2.1 scenarioDsum.disbursementID).countP (fun a => a.decreased) ∧
     (∃ a ∈ loanRows scenarioDout.2.1 scenarioDsum.disbursementID,
        a.record.numberOfDaysPastDue = some scenarioDsum.maxDpd) ∧
     (∀ a ∈ loanRows scenarioDout.2.1 scenarioDsum.disbursementID, ∀ d : Int,
        a.record.numberOfDaysPastDue = some d → d ≤ scenarioDsum.maxDpd) ∧
     (loanRows scenarioDout.2.1 scenarioDsum.disbursementID).getLast?.bind
        (fun a => a.record.numberOfDaysPastDue) = some scenarioDsum.currentDpd ∧
     scenarioDsum.totalRecords = (loanRows scenarioDout.2.1 scenarioDsum.disbursementID).length) :=
  ⟨by decide, by decide,
   detect_summary_whole_timeline scenarioD scenarioDout (by decide) scenarioDsum (by decide)⟩

/-- C5 witness: the theorem evaluated on a single-record loan that has a
promise status (scenario C). -/
theorem detect_min_two_records_witness :
    find_dpd_pattern_customers scenarioC = some scenarioCout ∧
    scenarioC.countP (fun r => r.disbursementID == "L3") < 2 ∧
    ("L3" ∉ scenarioCout.2.2 ∧ ∀ s ∈ scenarioCout.1, s.disbursementID ≠ "L3") :=
  ⟨by decide, by decide,
   detect_min_two_records scenarioC scenarioCout (by decide) "L3" (by decide)⟩

/-- C6 witness: the theorem evaluated on the scenario-A output. -/
theorem detect_flag_invariants_witness :
    find_dpd_pattern_customers scenarioA = some scenarioAout ∧
    ((∀ a ∈ scenarioAout.2.1, ¬(a.increased = true ∧ a.decreased = true)) ∧
     (∀ cid : String, ∀ a : AnnRow, (loanRows scenarioAout.2.1 cid).head? = some a →
       a.increased = false ∧ a.decreased = false)) :=
  ⟨by decide, detect_flag_invariants scenarioA scenarioAout (by decide)⟩

/-- C8 witness: the theorem evaluated on the scenario-A output. -/
theorem detect_no_double_count_witness :
    find_dpd_pattern_customers scenarioA = some scenarioAout ∧
    (scenarioAout.2.2.Nodup ∧ (scenarioAout.1.map (fun s => s.disbursementID)).Nodup) :=
  ⟨by decide, detect_no_double_count scenarioA scenarioAout (by decide)⟩

/-- C10 witness: the theorem evaluated on the scenario-A output. -/
theorem detect_records_preserved_witness :
    find_dpd_pattern_customers scenarioA = some scenarioAout ∧
    (scenarioAout.2.1.map (fun a => a.record)).Perm scenarioA :=
  ⟨by decide, detect_records_preserved scenarioA scenarioAout (by decide)⟩

/-- C2 witness: the amended theorem evaluated at the concrete null-DaysPastDue
row of the counterexample input. -/
theorem malformed_rows_carried_witness :
    c2NullAnn ∈ annotated c2WithNulls ∧ c2NullAnn.record.numberOfDaysPastDue = none ∧
    (((annotated c2WithNulls).map (fun x => x.record)).Perm c2WithNulls ∧
     c2NullAnn.increased = false ∧ c2NullAnn.decreased = false) :=
  ⟨by decide, by decide,
   malformed_rows_carried c2WithNulls c2NullAnn (by decide) (by decide)⟩

/-- C2 counterexample: removing the null-Date / null-DaysPastDue rows from a
concrete input changes the qualifying set (empty with the malformed rows
present, the loan qualifies once they are removed), so malformed rows are not
excluded before detection and the outputs are not equal. -/
theorem malformed_rows_change_output :
    c2Cleaned = c2WithNulls.filter (fun r => !(r.date == none) && !(r.numberOfDaysPastDue == none)) ∧
    (find_dpd_pattern_customers c2WithNulls).map (fun o => o.2.2) = some [] ∧
    (find_dpd_pattern_customers c2Cleaned).map (fun o => o.2.2) = some ["L1"] := by
  decide

/-- C3: the detector is NOT total.  On a loan that qualifies but whose last
date-sorted record has a null DaysPastDue, the int conversion of line 117
receives NaN and raises, aborting the whole call (modelled as `none`). -/
theorem detect_raises_on_null_last_dpd :
    find_dpd_pattern_customers c3LastNull = none := by
  decide

/-- C7 witness: the amended theorem evaluated at concrete inputs. -/
theorem resolveLoanId_normalized_witness :
    resolveLoanId "ABC" ["270001375"] = none ∧
    resolveLoanId "0270001375" ["270001375"] = resolveLoanId "270001375" ["270001375"] ∧
    resolveLoanId "270001375.0" ["270001375"] = resolveLoanId "270001375" ["270001375"] :=
  ⟨(resolveLoanId_normalized "ABC" ["270001375"]).2.1 (by decide),
   (resolveLoanId_normalized "ABC" ["270001375"]).2.2.1,
   (resolveLoanId_normalized "ABC" ["270001375"]).2.2.2⟩

/-- C9 witness: the theorem evaluated at a concrete record. -/
theorem collections_without_ptp_iff_witness :
    (c9Row ∈ collections_without_ptp [c9Row] ↔
      c9Row ∈ [c9Row] ∧ (∃ c, c9Row.collectionAmount = some c ∧ 0 < c) ∧
        c9Row.ptpAmount = some 0) ∧
    withoutPtpPred { c9Row with ptpStatus := some "Fulfilled" } = withoutPtpPred c9Row :=
  ⟨(collections_without_ptp_iff [c9Row] c9Row).1,
   (collections_without_ptp_iff [c9Row] c9Row).2 (some "Fulfilled")⟩

end LoanDashboard
